import Mathlib

/-!
Verification of python-deployer against its specification.

This file shallowly embeds the behavior-relevant parts of the source
(`main.py`, `utils.py`, `production.py`) as executable Lean definitions and
proves or refutes the frozen claims about them.

Modelling conventions:
* Python strings are `String` / `List Char`; the source only ever matches
  ASCII characters (`\d`, `[A-Za-z]`, whitespace in `strip`/`split`), so the
  character classes are modelled over ASCII.
* Machine time (`time.time()`, `datetime.now().timestamp()`) is modelled at
  integer granularity: unix seconds as `Int` for the signature check, and
  centiseconds as `Int` for elapsed-time rendering, matching the two decimal
  places of the source's format specifier.
* `hashlib`/`hmac` are external libraries; the HMAC-SHA256 hex digest is a
  function parameter `hmacHex : String → String → String` (key, message).
  `hmac.compare_digest` is modelled as string equality; its constant-time
  nature is a timing property outside the embedding.
* Flask is an external collaborator.  A request is a structure holding
  exactly the transport-layer data the source reads; `get_json(silent=True)`
  is the `Option`-valued field `getJsonSilent` (Flask returns `None` instead
  of raising when `silent=True` and the body does not parse).
* Raised Python exceptions are modelled as values (`PyExn`), and the routing
  of uncaught exceptions through the app-wide `handle_exception` error
  handler is explicit in `handler`.
-/

namespace Deployer

/-- ASCII whitespace, the characters recognised by Python's default
`str.strip` / `str.split` on ASCII input. -/
def asciiWs (c : Char) : Bool :=
  c = ' ' || c = '\t' || c = '\n' || c = '\r' || c = Char.ofNat 11 || c = Char.ofNat 12

/-- Python `str.rstrip()` on a character list. -/
def rstripL (l : List Char) : List Char :=
  ((l.reverse).dropWhile asciiWs).reverse

/-- Python `str.strip()` on a character list. -/
def stripL (l : List Char) : List Char :=
  rstripL (l.dropWhile asciiWs)

/-- Python `str.split()` (split on whitespace runs, dropping empty pieces),
fuel-driven; every step consumes at least one character, so fuel equal to the
length of the list suffices. -/
def pySplitGo : Nat → List Char → List (List Char)
  | 0, _ => []
  | fuel + 1, l =>
    let l1 := l.dropWhile asciiWs
    match l1 with
    | [] => []
    | c :: cs =>
      let w := (c :: cs).takeWhile (fun a => !asciiWs a)
      w :: pySplitGo fuel ((c :: cs).drop w.length)

/-- Python `str.split()` with no separator argument. -/
def pySplit (l : List Char) : List (List Char) :=
  pySplitGo (l.length + 1) l

/-- Whether the first list is a prefix of the second (Boolean). -/
def isPrefixOfL : List Char → List Char → Bool
  | [], _ => true
  | _ :: _, [] => false
  | a :: as, b :: bs => a = b && isPrefixOfL as bs

/-- Python's substring containment test `pat in s`. -/
def containsSubstrL (pat : List Char) : List Char → Bool
  | [] => isPrefixOfL pat []
  | c :: cs => isPrefixOfL pat (c :: cs) || containsSubstrL pat cs

/-- Python `s.replace(pat, rep)` for an empty `pat`: the replacement is
inserted before every character and at the end. -/
def replaceEmptyPat (rep s : List Char) : List Char :=
  match s with
  | [] => rep
  | c :: cs => rep ++ c :: replaceEmptyPat rep cs

/-- Fuel-driven worker for `replaceAllL`; the pattern is nonempty here, so
every step consumes at least one character of the subject. -/
def replaceAllGo (pat rep : List Char) : Nat → List Char → List Char
  | 0, l => l
  | _, [] => []
  | fuel + 1, c :: cs =>
    if isPrefixOfL pat (c :: cs) then
      rep ++ replaceAllGo pat rep fuel ((c :: cs).drop pat.length)
    else
      c :: replaceAllGo pat rep fuel cs

/-- Python `s.replace(pat, rep)`: non-overlapping left-to-right replacement
of every occurrence. -/
def replaceAllL (pat rep s : List Char) : List Char :=
  match pat with
  | [] => replaceEmptyPat rep s
  | _ :: _ => replaceAllGo pat rep (s.length + 1) s

/-- Lowercase an ASCII character, Python `str.lower()` on ASCII input. -/
def asciiLower (c : Char) : Char :=
  if 'A' ≤ c ∧ c ≤ 'Z' then Char.ofNat (c.toNat + 32) else c

/-- Python `str.lower()` on a character list. -/
def pyLowerL (l : List Char) : List Char :=
  l.map asciiLower

/-- Numeric value of an ASCII digit. -/
def digitVal (c : Char) : Nat := c.toNat - 48

/-- Digits of a Python integer literal after the first digit: runs of digits
separated by single underscores (as accepted by `int()` since Python 3.6). -/
def pyDigitsGo (acc : Nat) : List Char → Option Nat
  | [] => some acc
  | c :: cs =>
    if c.isDigit then pyDigitsGo (acc * 10 + digitVal c) cs
    else if c = '_' then
      match cs with
      | [] => none
      | c2 :: cs2 => if c2.isDigit then pyDigitsGo (acc * 10 + digitVal c2) cs2 else none
    else none

/-- Parse a nonempty digit sequence (with optional internal underscores);
`none` mirrors Python's `ValueError`. -/
def pyParseDigits : List Char → Option Nat
  | [] => none
  | c :: cs => if c.isDigit then pyDigitsGo (digitVal c) cs else none

/-- Python `int(s)` on a decimal string: surrounding whitespace stripped, an
optional single sign, then digits.  `none` mirrors a raised `ValueError`. -/
def pyParseInt (s : String) : Option Int :=
  let t := stripL s.toList
  match t with
  | '+' :: rest => (pyParseDigits rest).map (fun n => (n : Int))
  | '-' :: rest => (pyParseDigits rest).map (fun n => -(n : Int))
  | l => (pyParseDigits l).map (fun n => (n : Int))

/-- A parsed JSON value, the result type of Flask's `request.get_json`. -/
inductive JsonVal
  | null
  | jbool (b : Bool)
  | jnum (n : Int)
  | jstr (s : String)
  | jarr (elems : List JsonVal)
  | jobj (fields : List (String × JsonVal))

/-- The transport-layer data of one inbound HTTP request, holding exactly the
fields the source reads from `flask.request`.  `getJsonSilent` is the result
of `get_json(silent=True)`: `none` either when parsing failed or when the
body is absent (with `silent=True` Flask returns `None` rather than raising).
`xSignature`, `xTimestamp` and `xForwardedFor` are `headers.get` results:
`none` when the header is absent. -/
structure Request where
  method : String
  path : String
  queryArgs : List (String × String)
  form : List (String × String)
  isJson : Bool
  getJsonSilent : Option JsonVal
  xForwardedFor : Option String
  remoteAddr : String
  userAgent : String
  xSignature : Option String
  xTimestamp : Option String
  rawBody : String
  contentLength : Option Nat

/-- The shape of the mapping built by `utils.request_to_sanitized_json`: it
has exactly these seven fields and no others. -/
structure SanitizedRequest where
  method : String
  path : String
  query : List (String × String)
  form : Option (List (String × String))
  json : Option JsonVal
  ip : String
  user_agent : String

/-- Embedding of `utils.request_to_sanitized_json`: the sanitized,
JSON-serializable view of a request.  `req.form ... if req.form else None`
tests Python truthiness of the form multidict (empty means falsy), and the
ip is `headers.get("X-Forwarded-For", req.remote_addr)`. -/
def request_to_sanitized_json (req : Request) : SanitizedRequest :=
  { method := req.method
    path := req.path
    query := req.queryArgs
    form := if req.form = [] then none else some req.form
    json := if req.isJson then req.getJsonSilent else none
    ip := match req.xForwardedFor with
          | some f => f
          | none => req.remoteAddr
    user_agent := req.userAgent }

/-- The fields of `config.Config` that the request handlers read. -/
structure Config where
  max_email_payload_bytes : Int
  api_secret : String

/-- One entry of `config.apps` (`config.Config.App`). -/
structure DeployApp where
  name : String
  endpoint : String
  run_args : List String

/-- Python truthiness of `headers.get(...)`: `None` and the empty string are
falsy, so `not signature` holds exactly when the header is absent or empty. -/
def pyTruthyOptStr (o : Option String) : Bool :=
  match o with
  | none => false
  | some s => !(s = "")

/-- How one call of `main._abort_if_invalid_signature` resolved. -/
inductive VerifyOutcome
  | missingHeaders
  | parseError
  | staleTimestamp
  | invalidSignature
  | authenticated
deriving DecidableEq

/-- Result of one call of `main._abort_if_invalid_signature`, instrumented
with which steps of the check were reached: `parsedTimestamp` is true iff
`int(timestamp)` was evaluated (whether or not it raised), and
`comparedSignature` is true iff the HMAC digest was computed and compared. -/
structure VerifyTrace where
  outcome : VerifyOutcome
  parsedTimestamp : Bool
  comparedSignature : Bool
deriving DecidableEq

/-- Embedding of `main._abort_if_invalid_signature`.  The source aborts with
403 for missing/empty headers, stale timestamps and signature mismatches; a
non-numeric timestamp makes `int(timestamp)` raise `ValueError`, which the
function does not catch (`parseError`).  `hmacHex secret message` stands for
`hmac.new(secret, message, sha256).hexdigest()`, and `compare_digest` is
modelled as string equality. -/
def abort_if_invalid_signature (cfg : Config) (hmacHex : String → String → String)
    (nowSec : Int) (req : Request) : VerifyTrace :=
  let signature := req.xSignature
  let timestamp := req.xTimestamp
  if !pyTruthyOptStr signature || !pyTruthyOptStr timestamp then
    { outcome := VerifyOutcome.missingHeaders, parsedTimestamp := false, comparedSignature := false }
  else
    let ts := timestamp.getD ""
    match pyParseInt ts with
    | none =>
      { outcome := VerifyOutcome.parseError, parsedTimestamp := true, comparedSignature := false }
    | some t =>
      if (nowSec - t).natAbs > 300 then
        { outcome := VerifyOutcome.staleTimestamp, parsedTimestamp := true, comparedSignature := false }
      else
        let message := ts ++ req.rawBody
        let expected := hmacHex cfg.api_secret message
        if signature.getD "" = expected then
          { outcome := VerifyOutcome.authenticated, parsedTimestamp := true, comparedSignature := true }
        else
          { outcome := VerifyOutcome.invalidSignature, parsedTimestamp := true, comparedSignature := true }

/-- The declared content length of a request:
`flask.request.content_length if flask.request.content_length else 0`
(`None` and `0` are both falsy, so absent or unknown means `0`). -/
def declaredContentLength (req : Request) : Int :=
  match req.contentLength with
  | none => 0
  | some n => (n : Int)

/-- Embedding of the test in `main._abort_if_payload_too_large`: `true` means
the function aborts the request with 413. -/
def abort_if_payload_too_large (cfg : Config) (req : Request) : Bool :=
  decide (declaredContentLength req > cfg.max_email_payload_bytes)

/-- One message emitted to the structured logger, tagged with its level. -/
inductive LogEvent
  | debug (msg : String)
  | info (msg : String)
  | warning (msg : String)
  | error (msg : String)
deriving DecidableEq

/-- One line consumed from the child process, recording which stream it was
read from; the order of these events is the order in which the handler's
read loops consumed the streams. -/
inductive StreamRead
  | fromStdout (line : String)
  | fromStderr (line : String)
deriving DecidableEq

/-- Abstraction of one subprocess attempt as seen by the handler's `try`
block: `spawnError` is an exception raised by `Popen` itself (for example a
missing executable), `streamError` an I/O error raised while reading the
output streams, and `ran` a completed child with its full stdout and stderr
line lists and its `proc.wait()` exit code (negative for signal deaths).
For the two error cases the lines logged before the exception are not
modelled; no claim concerns them. -/
inductive ProcOutcome
  | spawnError
  | streamError
  | ran (stdoutLines : List String) (stderrLines : List String) (exitCode : Int)
deriving DecidableEq

/-- Two-digit zero-padded decimal. -/
def pad2 (k : Nat) : String :=
  if k < 10 then "0" ++ toString k else toString k

/-- Rendering of the elapsed time: the source formats a float with `:.2f`;
elapsed time is modelled in centiseconds, so this prints `n` centiseconds as
seconds with exactly two decimals (negative elapsed cannot occur and is
clamped to zero). -/
def fmtCenti (n : Int) : String :=
  toString (n.toNat / 100) ++ "." ++ pad2 (n.toNat % 100)

/-- The success message of the handler. -/
def successMessage (name : String) (elapsedC : Int) : String :=
  "Deployment for " ++ name ++ " succeeded in " ++ fmtCenti elapsedC ++ " seconds."

/-- The failure message of the handler. -/
def failureMessage (elapsedC : Int) : String :=
  "Deployment failed after " ++ fmtCenti elapsedC ++ " seconds."

/-- The warning the handler logs when the subprocess exit code is -15. -/
def sigtermWarning : String :=
  "Subprocess killed by SIGTERM — likely due to service restart. Did python-deployer just deploy itself?"

/-- The error-level message logged in the handler's `except` branch. -/
def failedDeployLog (name : String) : String :=
  "Failed to deploy app: " ++ name ++ "."

/-- The info-level message logged just before `Popen`. -/
def startingLog (app : DeployApp) : String :=
  "Starting deploy for '" ++ app.name ++ "' using \"" ++ String.intercalate " " app.run_args ++ "\"..."

/-- A stream line as the handler logs it: tag with the app name and strip the
line (`f"<{name}> {line.strip()}"` in the source, built here without
interpolation). -/
def taggedLine (name line : String) : String :=
  "<" ++ name ++ "> " ++ String.mk (stripL line.toList)

/-- Classification of one stderr line by the handler: a line containing the
case-insensitive substring "error" or "failed" is logged at error level, any
other stderr line at info level. -/
def classifyStderrLine (name line : String) : LogEvent :=
  let low := pyLowerL line.toList
  if containsSubstrL ("error".toList) low || containsSubstrL ("failed".toList) low then
    LogEvent.error (taggedLine name line)
  else
    LogEvent.info (taggedLine name line)

/-- JSON body of an HTTP response: `errorJson` is the body built by
`main.handle_exception` (`jsonify(error=..., code=..., success=False)`), and
`deployJson` the body built by the handler's own returns
(`jsonify({"success": ..., "message": ...})`). -/
inductive RespBody
  | errorJson (error : String) (code : Nat) (success : Bool)
  | deployJson (success : Bool) (message : String)
deriving DecidableEq

/-- The `success` field of a response body. -/
def RespBody.successFlag : RespBody → Bool
  | RespBody.errorJson _ _ s => s
  | RespBody.deployJson s _ => s

/-- Outcome of the deployment section of the handler (the `try` block and
its `except` recovery): HTTP status, JSON body, the log events it emitted,
and the order in which stream lines were consumed. -/
structure DeployRun where
  status : Nat
  body : RespBody
  logs : List LogEvent
  consumption : List StreamRead
deriving DecidableEq

/-- Embedding of the handler's `try`/`except` section in `main.handler`.
Control flow of the source: log the starting message, spawn; iterate the
whole of `proc.stdout` logging each line at info, then iterate the whole of
`proc.stderr` classifying each line; take the exit code; on -15 log the
SIGTERM warning and fall through to the success return (200), on any other
nonzero code raise, landing in `except`, which logs an error and returns the
failure body with 500; exit 0 returns the success body with 200.  `Popen`
and stream exceptions also land in `except`.  Elapsed time is the difference
of the recorded start and end clocks, in centiseconds. -/
def runDeploy (app : DeployApp) (startC endC : Int) (outcome : ProcOutcome) : DeployRun :=
  let elapsedC := endC - startC
  let startLog := LogEvent.info (startingLog app)
  match outcome with
  | ProcOutcome.spawnError =>
    { status := 500, body := RespBody.deployJson false (failureMessage elapsedC),
      logs := [startLog, LogEvent.error (failedDeployLog app.name)], consumption := [] }
  | ProcOutcome.streamError =>
    { status := 500, body := RespBody.deployJson false (failureMessage elapsedC),
      logs := [startLog, LogEvent.error (failedDeployLog app.name)], consumption := [] }
  | ProcOutcome.ran outLines errLines exitCode =>
    let stdoutLogs := outLines.map (fun l => LogEvent.info (taggedLine app.name l))
    let stderrLogs := errLines.map (fun l => classifyStderrLine app.name l)
    let consumed := outLines.map StreamRead.fromStdout ++ errLines.map StreamRead.fromStderr
    if exitCode = -15 then
      { status := 200, body := RespBody.deployJson true (successMessage app.name elapsedC),
        logs := startLog :: (stdoutLogs ++ stderrLogs ++ [LogEvent.warning sigtermWarning]),
        consumption := consumed }
    else if exitCode = 0 then
      { status := 200, body := RespBody.deployJson true (successMessage app.name elapsedC),
        logs := startLog :: (stdoutLogs ++ stderrLogs),
        consumption := consumed }
    else
      { status := 500, body := RespBody.deployJson false (failureMessage elapsedC),
        logs := startLog :: (stdoutLogs ++ stderrLogs ++ [LogEvent.error (failedDeployLog app.name)]),
        consumption := consumed }

/-- A Python exception reaching Flask's dispatcher: an `HTTPException` raised
by `flask.abort(code, description)`, or a `ValueError` from `int()`. -/
inductive PyExn
  | httpError (code : Nat) (description : String)
  | valueError (msg : String)
deriving DecidableEq

/-- Python's `str(e)` for the exceptions above.  Werkzeug renders an
`HTTPException` as its code, name and description; the claims only inspect
status codes and the `success` flag, so the rendering here keeps the code
and description. -/
def strOfExn : PyExn → String
  | PyExn.httpError c d => toString c ++ ": " ++ d
  | PyExn.valueError m => m

/-- The message of the `ValueError` raised by `int()` on a bad literal. -/
def intValueErrorMsg (s : String) : String :=
  "invalid literal for int() with base 10: '" ++ s ++ "'"

/-- Embedding of `main.handle_exception`, the app-wide error handler: status
is `getattr(e, "code", 500)` (an `HTTPException` carries its code, any other
exception has none, giving 500), and the body is
`jsonify(error=str(e), code=code, success=False)`. -/
def handle_exception (e : PyExn) : Nat × RespBody :=
  let code := match e with
              | PyExn.httpError c _ => c
              | PyExn.valueError _ => 500
  (code, RespBody.errorJson (strOfExn e) code false)

/-- The full observable result of one handler invocation: HTTP status and
body of the response the caller receives, whether control reached the
subprocess spawn statement, the verifier trace (`none` when the payload
check aborted first, so the verifier never ran), and the deployment
section's log events and stream consumption order.  The warning logs
emitted inside the two abort helpers are real but their formatted text
(float division, sanitized-request rendering) is not needed by any claim
and is not modelled. -/
structure HandlerRun where
  status : Nat
  body : RespBody
  reachedSpawn : Bool
  verify : Option VerifyTrace
  logs : List LogEvent
  consumption : List StreamRead

/-- Dispatch on the verifier's outcome, the part of `main.handler` after the
payload check: each abort raises an `HTTPException` routed through
`handle_exception`; an uncaught `ValueError` from `int()` is routed there
too; only an authenticated request reaches the `try` block and `Popen`. -/
def handlerVerified (app : DeployApp) (startC endC : Int) (req : Request)
    (outcome : ProcOutcome) (v : VerifyTrace) : HandlerRun :=
  match v.outcome with
  | VerifyOutcome.missingHeaders =>
    let r := handle_exception (PyExn.httpError 403
      "Missing auth header(s). Make sure you're sending 'X-Signature' and 'X-Timestamp'.")
    { status := r.1, body := r.2, reachedSpawn := false, verify := some v,
      logs := [], consumption := [] }
  | VerifyOutcome.parseError =>
    let r := handle_exception (PyExn.valueError (intValueErrorMsg (req.xTimestamp.getD "")))
    { status := r.1, body := r.2, reachedSpawn := false, verify := some v,
      logs := [], consumption := [] }
  | VerifyOutcome.staleTimestamp =>
    let r := handle_exception (PyExn.httpError 403 "Too old.")
    { status := r.1, body := r.2, reachedSpawn := false, verify := some v,
      logs := [], consumption := [] }
  | VerifyOutcome.invalidSignature =>
    let r := handle_exception (PyExn.httpError 403 "Invalid Signature.")
    { status := r.1, body := r.2, reachedSpawn := false, verify := some v,
      logs := [], consumption := [] }
  | VerifyOutcome.authenticated =>
    let d := runDeploy app startC endC outcome
    { status := d.status, body := d.body, reachedSpawn := true, verify := some v,
      logs := d.logs, consumption := d.consumption }

/-- Embedding of one app's request handler (`main.handler` as bound by
`make_route`): run the payload-size gate, then the signature verifier, then
the deployment section.  `nowSec` is `time.time()` at the verifier's check;
`startC`/`endC` are the `now()` readings around the deployment. -/
def handler (cfg : Config) (app : DeployApp) (hmacHex : String → String → String)
    (nowSec startC endC : Int) (req : Request) (outcome : ProcOutcome) : HandlerRun :=
  if abort_if_payload_too_large cfg req then
    let r := handle_exception (PyExn.httpError 413 "Payload too large.")
    { status := r.1, body := r.2, reachedSpawn := false, verify := none,
      logs := [], consumption := [] }
  else
    handlerVerified app startC endC req outcome (abort_if_invalid_signature cfg hmacHex nowSec req)

/-- One token of a fixed-shape regular pattern: a literal character, an ASCII
digit (`\d`), an ASCII letter (`[A-Za-z]`), or a sign (`[+-]`). -/
inductive Tok
  | lit (c : Char)
  | digitTok
  | alphaTok
  | signTok

/-- Whether one pattern token matches one character. -/
def tokMatch : Tok → Char → Bool
  | Tok.lit a, c => a = c
  | Tok.digitTok, c => c.isDigit
  | Tok.alphaTok, c => c.isAlpha
  | Tok.signTok, c => c = '+' || c = '-'

/-- Match a fixed token sequence against the front of a list, returning the
remainder on success. -/
def matchToks : List Tok → List Char → Option (List Char)
  | [], l => some l
  | _ :: _, [] => none
  | t :: ts, c :: cs => if tokMatch t c then matchToks ts cs else none

/-- Fuel-driven `re.sub(shape, "", s)` for a fixed-shape pattern: scan left
to right, deleting every non-overlapping match.  Each step consumes at least
one character (the shapes used all start with a literal), so fuel equal to
the length of the subject suffices. -/
def subShapeGo (shape : List Tok) : Nat → List Char → List Char
  | 0, l => l
  | _, [] => []
  | fuel + 1, c :: cs =>
    match matchToks shape (c :: cs) with
    | some rest => subShapeGo shape fuel rest
    | none => c :: subShapeGo shape fuel cs

/-- Full `re.sub(shape, "", s)` for a fixed-shape pattern. -/
def subShape (shape : List Tok) (s : List Char) : List Char :=
  subShapeGo shape (s.length + 1) s

/-- The Gunicorn timestamp pattern
`\[\d{4}-\d{2}-\d{2} \d{2}:\d{2}:\d{2} [+-]\d{4}\]`. -/
def gunicornTsToks : List Tok :=
  [Tok.lit '[', Tok.digitTok, Tok.digitTok, Tok.digitTok, Tok.digitTok, Tok.lit '-',
   Tok.digitTok, Tok.digitTok, Tok.lit '-', Tok.digitTok, Tok.digitTok, Tok.lit ' ',
   Tok.digitTok, Tok.digitTok, Tok.lit ':', Tok.digitTok, Tok.digitTok, Tok.lit ':',
   Tok.digitTok, Tok.digitTok, Tok.lit ' ', Tok.signTok,
   Tok.digitTok, Tok.digitTok, Tok.digitTok, Tok.digitTok, Tok.lit ']']

/-- The Apache-style timestamp pattern
`\[(\d{2}/[A-Za-z]{3}/\d{4}:\d{2}:\d{2}:\d{2} [+-]\d{4})\]`. -/
def apacheTsToks : List Tok :=
  [Tok.lit '[', Tok.digitTok, Tok.digitTok, Tok.lit '/',
   Tok.alphaTok, Tok.alphaTok, Tok.alphaTok, Tok.lit '/',
   Tok.digitTok, Tok.digitTok, Tok.digitTok, Tok.digitTok, Tok.lit ':',
   Tok.digitTok, Tok.digitTok, Tok.lit ':', Tok.digitTok, Tok.digitTok, Tok.lit ':',
   Tok.digitTok, Tok.digitTok, Tok.lit ' ', Tok.signTok,
   Tok.digitTok, Tok.digitTok, Tok.digitTok, Tok.digitTok, Tok.lit ']']

/-- Fuel-driven `re.sub(r"\[(\d+)\]", r"(worker_pid: \1)", s)`: a bracketed
nonempty digit run is rewritten to the worker-pid annotation; scanning is
left to right and the replacement text is not rescanned.  Backtracking the
greedy `\d+` can never help (any shorter digit run is followed by a digit,
not `]`), so taking the maximal run is exact. -/
def subPidGo : Nat → List Char → List Char
  | 0, l => l
  | _, [] => []
  | fuel + 1, c :: cs =>
    if c = '[' then
      let ds := cs.takeWhile Char.isDigit
      match cs.drop ds.length with
      | ']' :: rest2 =>
        if ds = [] then '[' :: subPidGo fuel cs
        else ("(worker_pid: ".toList ++ ds ++ [')']) ++ subPidGo fuel rest2
      | _ => '[' :: subPidGo fuel cs
    else c :: subPidGo fuel cs

/-- Full `re.sub(r"\[(\d+)\]", r"(worker_pid: \1)", s)`. -/
def subPid (s : List Char) : List Char :=
  subPidGo (s.length + 1) s

/-- The inner `_log` normalization of
`production.StreamToLoggerFromGunicornProcess.write`: remove every
occurrence of the level marker, then collapse whitespace runs to single
spaces (`" ".join(message.replace(txt, "").split())`). -/
def logNormalize (levelTxt : List Char) (m : List Char) : List Char :=
  List.intercalate [' '] (pySplit (replaceAllL levelTxt [] m))

/-- The DEBUG level marker text. -/
def debugMarker : List Char := "[DEBUG]".toList

/-- The INFO level marker text. -/
def infoMarker : List Char := "[INFO]".toList

/-- The WARNING level marker text. -/
def warningMarker : List Char := "[WARNING]".toList

/-- The ERROR level marker text. -/
def errorMarker : List Char := "[ERROR]".toList

/-- The level table of the adapter, in the insertion order of the source's
dict: DEBUG, INFO, WARNING, ERROR, with the numeric values of Python's
`logging` constants. -/
def gunicornLevelsList : List (Nat × List Char) :=
  [(10, debugMarker), (20, infoMarker), (30, warningMarker), (40, errorMarker)]

/-- The adapter's scan over the level table: the first marker contained in
the message wins and the line is normalized with that marker removed;
`none` means no marker matched. -/
def scanLevels : List (Nat × List Char) → List Char → Option (Nat × List Char)
  | [], _ => none
  | (lv, txt) :: rest, m =>
    if containsSubstrL txt m then some (lv, logNormalize txt m) else scanLevels rest m

/-- The message rewriting pipeline of the adapter before the level scan:
right-strip, remove Gunicorn timestamps, remove Apache-style timestamps,
rewrite bracketed PIDs. -/
def gunicornRewritten (message : String) : List Char :=
  subPid (subShape apacheTsToks (subShape gunicornTsToks (rstripL message.toList)))

/-- Embedding of `production.StreamToLoggerFromGunicornProcess.write` for one
buffered message: `none` when the right-stripped message is empty (nothing
logged), otherwise the level and normalized text handed to `logger.log`.
When no level marker is found the source logs at INFO via
`_log(logging.INFO, "")`, and removing the empty string is the identity, so
the text is the whitespace-normalized rewritten message. -/
def gunicornWrite (message : String) : Option (Nat × String) :=
  if rstripL message.toList = [] then none
  else
    match scanLevels gunicornLevelsList (gunicornRewritten message) with
    | some p => some (p.1, String.mk p.2)
    | none => some (20, String.mk (logNormalize [] (gunicornRewritten message)))

/-- A concrete configuration used to evaluate the claims on explicit inputs. -/
def cfgStd : Config :=
  { max_email_payload_bytes := 1000, api_secret := "topsecret" }

/-- A concrete configured app. -/
def appStd : DeployApp :=
  { name := "svc", endpoint := "/deploy/svc", run_args := ["bash", "deploy.sh"] }

/-- A concrete digest function under which the string "aa" is the valid
signature for every message. -/
def hmacConst : String → String → String := fun _ _ => "aa"

/-- A concrete request that passes both the payload gate and the signature
verifier (under `cfgStd`/`hmacConst` at time 0). -/
def reqAuthOk : Request :=
  { method := "POST", path := "/deploy/svc", queryArgs := [], form := [],
    isJson := false, getJsonSilent := none, xForwardedFor := none,
    remoteAddr := "10.0.0.1", userAgent := "curl/8.0",
    xSignature := some "aa", xTimestamp := some "0",
    rawBody := "b", contentLength := none }

/-- A concrete oversized request that still carries a valid signature. -/
def reqBigValid : Request :=
  { reqAuthOk with contentLength := some 2000 }

/-- A concrete oversized request with no auth headers at all. -/
def reqBigNoAuth : Request :=
  { reqAuthOk with
    xSignature := none
    xTimestamp := none
    contentLength := some 2000 }

/-- A concrete in-ceiling request with the signature header absent. -/
def reqNoSig : Request :=
  { reqAuthOk with xSignature := none }

/-- A concrete request whose signature header is present but empty. -/
def reqEmptySig : Request :=
  { reqAuthOk with xSignature := some "" }

/-- A concrete request whose timestamp header is not a decimal integer. -/
def reqBadTs : Request :=
  { reqAuthOk with xTimestamp := some "not-a-number" }

/-- A second authenticated request, used for the C4 counterexample. -/
def reqAuthOk2 : Request :=
  { reqAuthOk with rawBody := "payload" }

/-- A concrete request carrying query, form and JSON data. -/
def reqSan1 : Request :=
  { method := "POST", path := "/deploy/svc",
    queryArgs := [("force", "1")], form := [("k", "v")],
    isJson := true, getJsonSilent := some (JsonVal.jobj [("ref", JsonVal.jstr "main")]),
    xForwardedFor := some "203.0.113.9", remoteAddr := "10.0.0.1",
    userAgent := "curl/8.0", xSignature := none, xTimestamp := none,
    rawBody := "", contentLength := none }

/-- Variant of `reqSan1` with different signature, timestamp, raw body and declared
length: everything the sanitizer must not leak. -/
def reqSan2 : Request :=
  { reqSan1 with
    xSignature := some "deadbeef"
    xTimestamp := some "1234"
    rawBody := "secret-derived-material"
    contentLength := some 23 }

/-- A concrete JSON-typed request whose body failed to parse. -/
def reqBadJson : Request :=
  { reqSan1 with getJsonSilent := none }

/-- The verifier rejects as `missingHeaders` whenever either header is
absent or empty, without parsing the timestamp or touching the digest. -/
theorem verify_missing_of_falsy (cfg : Config) (hmacHex : String → String → String)
    (nowSec : Int) (req : Request)
    (h : pyTruthyOptStr req.xSignature = false ∨ pyTruthyOptStr req.xTimestamp = false) :
    abort_if_invalid_signature cfg hmacHex nowSec req =
      { outcome := VerifyOutcome.missingHeaders, parsedTimestamp := false,
        comparedSignature := false } := by
  rcases h with h | h <;> simp [abort_if_invalid_signature, h]

/-- C6: a declared content length (0 when absent) above the configured
ceiling is rejected with 413 for every request — whatever its signature
headers, digest function or timestamp — before the signature verifier runs
(the verifier trace is `none`) and without reaching the spawn step. -/
theorem C6_oversized_payload_rejected_413 (cfg : Config) (app : DeployApp)
    (hmacHex : String → String → String) (nowSec startC endC : Int)
    (req : Request) (outcome : ProcOutcome)
    (hbig : declaredContentLength req > cfg.max_email_payload_bytes) :
    (handler cfg app hmacHex nowSec startC endC req outcome).status = 413 ∧
    (handler cfg app hmacHex nowSec startC endC req outcome).reachedSpawn = false ∧
    (handler cfg app hmacHex nowSec startC endC req outcome).verify = none := by
  have hb : abort_if_payload_too_large cfg req = true := by
    simp [abort_if_payload_too_large, hbig]
  simp [handler, hb, handle_exception]

/-- C6 witness: an oversized request carrying a signature that would verify
is still rejected with 413 and the verifier never runs. -/
theorem C6_oversized_payload_rejected_413_witness :
    declaredContentLength reqBigValid > cfgStd.max_email_payload_bytes ∧
    (handler cfgStd appStd hmacConst 0 0 250 reqBigValid (ProcOutcome.ran [] [] 0)).status = 413 ∧
    (handler cfgStd appStd hmacConst 0 0 250 reqBigValid (ProcOutcome.ran [] [] 0)).verify = none := by
  have h := C6_oversized_payload_rejected_413 cfgStd appStd hmacConst 0 0 250 reqBigValid
    (ProcOutcome.ran [] [] 0) (by decide)
  exact ⟨by decide, h.1, h.2.2⟩

/-- C5 counterexample: a request lacking both auth headers whose declared
content length exceeds the ceiling is answered with 413, not 403 — the
payload check runs first — so the claim's universally quantified "the
response is 403" is false as stated. -/
theorem C5_counterexample_oversized_missing_headers :
    (handler cfgStd appStd hmacConst 0 0 250 reqBigNoAuth (ProcOutcome.ran [] [] 0)).status = 413 ∧
    ¬ (handler cfgStd appStd hmacConst 0 0 250 reqBigNoAuth (ProcOutcome.ran [] [] 0)).status = 403 := by
  decide

/-- C5 (amended): a request lacking the signature or timestamp header never
reaches the spawn step and is always rejected with 403 or 413; when it is
within the payload ceiling the response is 403. -/
theorem C5_missing_header_no_spawn (cfg : Config) (app : DeployApp)
    (hmacHex : String → String → String) (nowSec startC endC : Int)
    (req : Request) (outcome : ProcOutcome)
    (hmiss : req.xSignature = none ∨ req.xTimestamp = none) :
    (handler cfg app hmacHex nowSec startC endC req outcome).reachedSpawn = false ∧
    ((handler cfg app hmacHex nowSec startC endC req outcome).status = 413 ∨
     (handler cfg app hmacHex nowSec startC endC req outcome).status = 403) ∧
    (abort_if_payload_too_large cfg req = false →
      (handler cfg app hmacHex nowSec startC endC req outcome).status = 403) := by
  have hv : abort_if_invalid_signature cfg hmacHex nowSec req =
      { outcome := VerifyOutcome.missingHeaders, parsedTimestamp := false,
        comparedSignature := false } := by
    apply verify_missing_of_falsy
    rcases hmiss with h | h
    · exact Or.inl (by simp [h, pyTruthyOptStr])
    · exact Or.inr (by simp [h, pyTruthyOptStr])
  by_cases hp : abort_if_payload_too_large cfg req = true
  · simp [handler, hp, handle_exception]
  · have hp' : abort_if_payload_too_large cfg req = false := by
      simpa using hp
    simp [handler, hp', handlerVerified, hv, handle_exception]

/-- C5 witness: an in-ceiling request with no signature header gets 403 and
never spawns. -/
theorem C5_missing_header_no_spawn_witness :
    (handler cfgStd appStd hmacConst 0 0 250 reqNoSig (ProcOutcome.ran [] [] 0)).reachedSpawn = false ∧
    (handler cfgStd appStd hmacConst 0 0 250 reqNoSig (ProcOutcome.ran [] [] 0)).status = 403 := by
  have h := C5_missing_header_no_spawn cfgStd appStd hmacConst 0 0 250 reqNoSig
    (ProcOutcome.ran [] [] 0) (Or.inl rfl)
  exact ⟨h.1, h.2.2 (by decide)⟩

/-- C10: a signature or timestamp header that is present but empty is
handled exactly like an absent one — the falsy check catches it, the
verifier resolves to `missingHeaders` with neither the timestamp parse nor
the digest comparison performed, the trace equals the trace of the same
request with the header removed, and (within the payload ceiling) the
response is the missing-headers 403 with no spawn. -/
theorem C10_empty_header_treated_as_missing (cfg : Config) (app : DeployApp)
    (hmacHex : String → String → String) (nowSec startC endC : Int)
    (req : Request) (outcome : ProcOutcome)
    (hempty : req.xSignature = some "" ∨ req.xTimestamp = some "") :
    abort_if_invalid_signature cfg hmacHex nowSec req =
      { outcome := VerifyOutcome.missingHeaders, parsedTimestamp := false,
        comparedSignature := false } ∧
    (req.xSignature = some "" →
      abort_if_invalid_signature cfg hmacHex nowSec req =
        abort_if_invalid_signature cfg hmacHex nowSec { req with xSignature := none }) ∧
    (req.xTimestamp = some "" →
      abort_if_invalid_signature cfg hmacHex nowSec req =
        abort_if_invalid_signature cfg hmacHex nowSec { req with xTimestamp := none }) ∧
    (abort_if_payload_too_large cfg req = false →
      (handler cfg app hmacHex nowSec startC endC req outcome).status = 403 ∧
      (handler cfg app hmacHex nowSec startC endC req outcome).reachedSpawn = false) := by
  have hv : abort_if_invalid_signature cfg hmacHex nowSec req =
      { outcome := VerifyOutcome.missingHeaders, parsedTimestamp := false,
        comparedSignature := false } := by
    apply verify_missing_of_falsy
    rcases hempty with h | h
    · exact Or.inl (by simp [h, pyTruthyOptStr])
    · exact Or.inr (by simp [h, pyTruthyOptStr])
  refine ⟨hv, ?_, ?_, ?_⟩
  · intro hs
    rw [hv]
    exact (verify_missing_of_falsy cfg hmacHex nowSec _ (Or.inl (by simp [pyTruthyOptStr]))).symm
  · intro ht
    rw [hv]
    exact (verify_missing_of_falsy cfg hmacHex nowSec _ (Or.inr (by simp [pyTruthyOptStr]))).symm
  · intro hp
    simp [handler, hp, handlerVerified, hv, handle_exception]

/-- C10 witness: an empty signature header yields the missing-headers trace
and a 403 response without parsing or digest work. -/
theorem C10_empty_header_treated_as_missing_witness :
    abort_if_invalid_signature cfgStd hmacConst 0 reqEmptySig =
      { outcome := VerifyOutcome.missingHeaders, parsedTimestamp := false,
        comparedSignature := false } ∧
    (handler cfgStd appStd hmacConst 0 0 250 reqEmptySig (ProcOutcome.ran [] [] 0)).status = 403 := by
  have h := C10_empty_header_treated_as_missing cfgStd appStd hmacConst 0 0 250 reqEmptySig
    (ProcOutcome.ran [] [] 0) (Or.inl rfl)
  exact ⟨h.1, (h.2.2.2 (by decide)).1⟩

/-- C7: with both auth headers present and an integer timestamp whose
distance from the current time exceeds 300 seconds (in either direction),
the verifier resolves to `staleTimestamp` without ever comparing signatures
— for every signature value and every digest function — and, within the
payload ceiling, the response is 403 with no spawn. -/
theorem C7_stale_timestamp_rejected (cfg : Config) (app : DeployApp)
    (hmacHex : String → String → String) (nowSec startC endC : Int)
    (req : Request) (outcome : ProcOutcome) (t : Int)
    (hsig : pyTruthyOptStr req.xSignature = true)
    (hts : pyTruthyOptStr req.xTimestamp = true)
    (hparse : pyParseInt (req.xTimestamp.getD "") = some t)
    (hstale : (nowSec - t).natAbs > 300) :
    abort_if_invalid_signature cfg hmacHex nowSec req =
      { outcome := VerifyOutcome.staleTimestamp, parsedTimestamp := true,
        comparedSignature := false } ∧
    (abort_if_payload_too_large cfg req = false →
      (handler cfg app hmacHex nowSec startC endC req outcome).status = 403 ∧
      (handler cfg app hmacHex nowSec startC endC req outcome).reachedSpawn = false) := by
  have hv : abort_if_invalid_signature cfg hmacHex nowSec req =
      { outcome := VerifyOutcome.staleTimestamp, parsedTimestamp := true,
        comparedSignature := false } := by
    simp [abort_if_invalid_signature, hsig, hts, hparse, hstale]
  refine ⟨hv, ?_⟩
  intro hp
  simp [handler, hp, handlerVerified, hv, handle_exception]

/-- C7 witness: a 1000-second-old timestamp is rejected with 403 and the
digest is never compared, even though the carried signature is exactly the
one the digest function would produce. -/
theorem C7_stale_timestamp_rejected_witness :
    (1000 - (0 : Int)).natAbs > 300 ∧
    abort_if_invalid_signature cfgStd hmacConst 1000 reqAuthOk =
      { outcome := VerifyOutcome.staleTimestamp, parsedTimestamp := true,
        comparedSignature := false } ∧
    (handler cfgStd appStd hmacConst 1000 0 250 reqAuthOk (ProcOutcome.ran [] [] 0)).status = 403 := by
  have h := C7_stale_timestamp_rejected cfgStd appStd hmacConst 1000 0 250 reqAuthOk
    (ProcOutcome.ran [] [] 0) 0 (by decide) (by decide) (by decide) (by decide)
  exact ⟨by decide, h.1, (h.2 (by decide)).1⟩

/-- C1 counterexample: a deployment whose subprocess exits with code -15 is
answered with 200 and success true — the source's `elif` skips the raise for
-15 and falls through to the success return — so the claim that the caller
receives a 500 failure, like any other nonzero exit, is false. -/
theorem C1_counterexample_sigterm_returns_200 :
    (handler cfgStd appStd hmacConst 0 0 250 reqAuthOk (ProcOutcome.ran [] [] (-15))).status = 200 ∧
    (handler cfgStd appStd hmacConst 0 0 250 reqAuthOk (ProcOutcome.ran [] [] (-15))).body =
      RespBody.deployJson true (successMessage "svc" 250) ∧
    ¬ (handler cfgStd appStd hmacConst 0 0 250 reqAuthOk (ProcOutcome.ran [] [] (-15))).status = 500 := by
  decide

/-- C1 (amended): for every authenticated deployment whose subprocess exits
with code -15, the handler logs the SIGTERM warning and returns a success
result to the HTTP caller — a 200 response with success true and the
success message — unlike any other nonzero exit code. -/
theorem C1_sigterm_logs_warning_returns_success (cfg : Config) (app : DeployApp)
    (hmacHex : String → String → String) (nowSec startC endC : Int)
    (req : Request) (outLines errLines : List String)
    (hsize : abort_if_payload_too_large cfg req = false)
    (hauth : (abort_if_invalid_signature cfg hmacHex nowSec req).outcome =
      VerifyOutcome.authenticated) :
    (handler cfg app hmacHex nowSec startC endC req
        (ProcOutcome.ran outLines errLines (-15))).status = 200 ∧
    (handler cfg app hmacHex nowSec startC endC req
        (ProcOutcome.ran outLines errLines (-15))).body =
      RespBody.deployJson true (successMessage app.name (endC - startC)) ∧
    LogEvent.warning sigtermWarning ∈
      (handler cfg app hmacHex nowSec startC endC req
        (ProcOutcome.ran outLines errLines (-15))).logs := by
  simp [handler, hsize, handlerVerified, hauth, runDeploy]

/-- C1 witness: a concrete authenticated request with exit code -15 gets 200
with the SIGTERM warning logged. -/
theorem C1_sigterm_logs_warning_returns_success_witness :
    (handler cfgStd appStd hmacConst 0 0 250 reqAuthOk
        (ProcOutcome.ran ["pulling"] [] (-15))).status = 200 ∧
    LogEvent.warning sigtermWarning ∈
      (handler cfgStd appStd hmacConst 0 0 250 reqAuthOk
        (ProcOutcome.ran ["pulling"] [] (-15))).logs := by
  have h := C1_sigterm_logs_warning_returns_success cfgStd appStd hmacConst 0 0 250 reqAuthOk
    ["pulling"] [] (by decide) (by decide)
  exact ⟨h.1, h.2.2⟩

/-- C2 counterexample: a request with both headers present whose timestamp
is not a decimal integer is answered with 500 (the uncaught `ValueError`
routed through the app-wide handler), not with a 403 missing-headers
rejection; the verifier trace records the parse failure. -/
theorem C2_counterexample_bad_timestamp_500 :
    (handler cfgStd appStd hmacConst 0 0 250 reqBadTs (ProcOutcome.ran [] [] 0)).status = 500 ∧
    (handler cfgStd appStd hmacConst 0 0 250 reqBadTs (ProcOutcome.ran [] [] 0)).verify =
      some { outcome := VerifyOutcome.parseError, parsedTimestamp := true,
             comparedSignature := false } ∧
    ¬ (handler cfgStd appStd hmacConst 0 0 250 reqBadTs (ProcOutcome.ran [] [] 0)).status = 403 := by
  decide

/-- C2 (amended): for every in-ceiling request with both auth headers
present and a timestamp that does not parse as an integer, `int(timestamp)`
raises a `ValueError` that escapes the verifier; the app-wide exception
handler converts it into a 500 JSON error response (success false), and no
subprocess is spawned.  The request is not rejected as a 403
missing-headers case. -/
theorem C2_bad_timestamp_resolves_500 (cfg : Config) (app : DeployApp)
    (hmacHex : String → String → String) (nowSec startC endC : Int)
    (req : Request) (outcome : ProcOutcome)
    (hsize : abort_if_payload_too_large cfg req = false)
    (hsig : pyTruthyOptStr req.xSignature = true)
    (hts : pyTruthyOptStr req.xTimestamp = true)
    (hparse : pyParseInt (req.xTimestamp.getD "") = none) :
    (handler cfg app hmacHex nowSec startC endC req outcome).status = 500 ∧
    (handler cfg app hmacHex nowSec startC endC req outcome).body =
      RespBody.errorJson (intValueErrorMsg (req.xTimestamp.getD "")) 500 false ∧
    (handler cfg app hmacHex nowSec startC endC req outcome).reachedSpawn = false := by
  have hv : abort_if_invalid_signature cfg hmacHex nowSec req =
      { outcome := VerifyOutcome.parseError, parsedTimestamp := true,
        comparedSignature := false } := by
    simp [abort_if_invalid_signature, hsig, hts, hparse]
  simp [handler, hsize, handlerVerified, hv, handle_exception, strOfExn]

/-- C2 witness: the concrete timestamp "not-a-number" yields the 500
ValueError response without spawning. -/
theorem C2_bad_timestamp_resolves_500_witness :
    (handler cfgStd appStd hmacConst 0 0 250 reqBadTs (ProcOutcome.ran [] [] 0)).status = 500 ∧
    (handler cfgStd appStd hmacConst 0 0 250 reqBadTs (ProcOutcome.ran [] [] 0)).reachedSpawn = false := by
  have h := C2_bad_timestamp_resolves_500 cfgStd appStd hmacConst 0 0 250 reqBadTs
    (ProcOutcome.ran [] [] 0) (by decide) (by decide) (by decide) (by decide)
  exact ⟨h.1, h.2.2⟩

/-- C4 counterexample: exit code -15 is a nonzero exit code, yet the handler
answers 200 with success true rather than the claimed 500 with success
false, so the claim quantified over every nonzero exit is false as
stated. -/
theorem C4_counterexample_sigterm_not_500 :
    (handler cfgStd appStd hmacConst 0 0 375 reqAuthOk2
        (ProcOutcome.ran ["building"] ["done"] (-15))).status = 200 ∧
    (handler cfgStd appStd hmacConst 0 0 375 reqAuthOk2
        (ProcOutcome.ran ["building"] ["done"] (-15))).body.successFlag = true ∧
    ¬ (handler cfgStd appStd hmacConst 0 0 375 reqAuthOk2
        (ProcOutcome.ran ["building"] ["done"] (-15))).status = 500 := by
  decide

/-- C4 (amended): the handler's deployment section is a total function of
the subprocess outcome — every outcome yields a well-formed JSON response,
never a propagated exception — and for every failure mode other than the
-15 SIGTERM sentinel (any other nonzero exit, a spawn error, or a stream
I/O error) the response is 500 with success false and the message stating
the elapsed time, with the error-level failure entry logged. -/
theorem C4_failures_resolve_to_500 (cfg : Config) (app : DeployApp)
    (hmacHex : String → String → String) (nowSec startC endC : Int)
    (req : Request) (outcome : ProcOutcome)
    (hsize : abort_if_payload_too_large cfg req = false)
    (hauth : (abort_if_invalid_signature cfg hmacHex nowSec req).outcome =
      VerifyOutcome.authenticated)
    (hfail : outcome = ProcOutcome.spawnError ∨ outcome = ProcOutcome.streamError ∨
      ∃ outLines errLines c, outcome = ProcOutcome.ran outLines errLines c ∧
        c ≠ 0 ∧ c ≠ -15) :
    (handler cfg app hmacHex nowSec startC endC req outcome).status = 500 ∧
    (handler cfg app hmacHex nowSec startC endC req outcome).body =
      RespBody.deployJson false (failureMessage (endC - startC)) ∧
    LogEvent.error (failedDeployLog app.name) ∈
      (handler cfg app hmacHex nowSec startC endC req outcome).logs := by
  rcases hfail with h | h | ⟨outLines, errLines, c, h, hc0, hc15⟩
  · subst h
    simp [handler, hsize, handlerVerified, hauth, runDeploy]
  · subst h
    simp [handler, hsize, handlerVerified, hauth, runDeploy]
  · subst h
    simp [handler, hsize, handlerVerified, hauth, runDeploy, hc0, hc15]

/-- C4 witness: a concrete spawn failure yields the 500 failure response
with the elapsed-time message. -/
theorem C4_failures_resolve_to_500_witness :
    (handler cfgStd appStd hmacConst 0 0 250 reqAuthOk ProcOutcome.spawnError).status = 500 ∧
    (handler cfgStd appStd hmacConst 0 0 250 reqAuthOk ProcOutcome.spawnError).body =
      RespBody.deployJson false (failureMessage 250) := by
  have h := C4_failures_resolve_to_500 cfgStd appStd hmacConst 0 0 250 reqAuthOk
    ProcOutcome.spawnError (by decide) (by decide) (Or.inl rfl)
  exact ⟨h.1, h.2.1⟩

/-- The stream consumption order of a completed run: the handler's first
`for` loop reads the whole of stdout, its second loop then reads stderr, for
every exit code. -/
theorem runDeploy_ran_consumption (app : DeployApp) (startC endC : Int)
    (outLines errLines : List String) (c : Int) :
    (runDeploy app startC endC (ProcOutcome.ran outLines errLines c)).consumption =
      outLines.map StreamRead.fromStdout ++ errLines.map StreamRead.fromStderr := by
  by_cases h15 : c = -15
  · simp [runDeploy, h15]
  · by_cases h0 : c = 0 <;> simp [runDeploy, h15, h0]

/-- C3: the handler's two read loops are sequential, not concurrent — for
every run, the first `outLines.length` stream reads are exactly the stdout
lines and every stderr line is read only after stdout is fully drained; the
concrete run shows no stderr read interleaves with the stdout reads.  This
refutes the claim's "two independent consumption paths": a child that fills
the stderr pipe while its stdout is still being drained deadlocks the
handler. -/
theorem C3_streams_consumed_sequentially :
    (∀ (app : DeployApp) (startC endC : Int) (outLines errLines : List String) (c : Int),
      (runDeploy app startC endC (ProcOutcome.ran outLines errLines c)).consumption.take
          outLines.length = outLines.map StreamRead.fromStdout ∧
      (runDeploy app startC endC (ProcOutcome.ran outLines errLines c)).consumption.drop
          outLines.length = errLines.map StreamRead.fromStderr) ∧
    (runDeploy appStd 0 250 (ProcOutcome.ran ["step 1", "step 2"] ["warning: low disk"] 0)).consumption
      = [StreamRead.fromStdout "step 1", StreamRead.fromStdout "step 2",
         StreamRead.fromStderr "warning: low disk"] := by
  constructor
  · intro app startC endC outLines errLines c
    rw [runDeploy_ran_consumption]
    constructor
    · have h := List.take_left (outLines.map StreamRead.fromStdout)
        (errLines.map StreamRead.fromStderr)
      rwa [List.length_map] at h
    · have h := List.drop_left (outLines.map StreamRead.fromStdout)
        (errLines.map StreamRead.fromStderr)
      rwa [List.length_map] at h
  · decide

/-- C8: the sanitized view of a request depends only on its method, path,
query, form, JSON-parse result, forwarded-for header, peer address and
user-agent — two requests differing arbitrarily in the signature header,
the timestamp header, the raw body and the declared content length
sanitize identically, so none of those can appear in the output — and when
the content type indicates JSON but the body failed to parse, the json
field is null (the sanitizer is a total function, so the call cannot
raise). -/
theorem C8_sanitizer_leaks_nothing (r1 r2 : Request)
    (hm : r1.method = r2.method) (hp : r1.path = r2.path)
    (hq : r1.queryArgs = r2.queryArgs) (hf : r1.form = r2.form)
    (hj : r1.isJson = r2.isJson) (hg : r1.getJsonSilent = r2.getJsonSilent)
    (hx : r1.xForwardedFor = r2.xForwardedFor) (hr : r1.remoteAddr = r2.remoteAddr)
    (hu : r1.userAgent = r2.userAgent) :
    request_to_sanitized_json r1 = request_to_sanitized_json r2 ∧
    ∀ r : Request, r.isJson = true → r.getJsonSilent = none →
      (request_to_sanitized_json r).json = none := by
  constructor
  · simp [request_to_sanitized_json, hm, hp, hq, hf, hj, hg, hx, hr, hu]
  · intro r h1 h2
    simp [request_to_sanitized_json, h1, h2]

/-- C8 witness: two concrete requests differing exactly in signature,
timestamp, raw body and content length sanitize to the same mapping, and a
concrete JSON request whose body failed to parse sanitizes with a null json
field. -/
theorem C8_sanitizer_leaks_nothing_witness :
    request_to_sanitized_json reqSan1 = request_to_sanitized_json reqSan2 ∧
    (request_to_sanitized_json reqBadJson).json = none := by
  have h := C8_sanitizer_leaks_nothing reqSan1 reqSan2
    rfl rfl rfl rfl rfl rfl rfl rfl rfl
  exact ⟨h.1, h.2 reqBadJson rfl rfl⟩

/-- C9: the adapter routes the concrete Gunicorn boot line at info level
with its text normalized to exactly "(worker_pid: 82608) Booting worker";
and in general, for every nonempty line, the level markers are scanned in
the fixed order DEBUG, INFO, WARNING, ERROR with the first contained marker
winning, the matched marker is removed and whitespace runs collapsed to
single spaces, and a line containing no marker is emitted at info level
with only the whitespace normalization applied. -/
theorem C9_log_adapter_normalization :
    gunicornWrite "[2025-09-03 17:17:55 -0400] [INFO] [82608] Booting worker"
      = some (20, "(worker_pid: 82608) Booting worker") ∧
    ∀ s : String, rstripL s.toList ≠ [] →
      (containsSubstrL debugMarker (gunicornRewritten s) = true →
        gunicornWrite s
          = some (10, String.mk (logNormalize debugMarker (gunicornRewritten s)))) ∧
      (containsSubstrL debugMarker (gunicornRewritten s) = false →
        containsSubstrL infoMarker (gunicornRewritten s) = true →
        gunicornWrite s
          = some (20, String.mk (logNormalize infoMarker (gunicornRewritten s)))) ∧
      (containsSubstrL debugMarker (gunicornRewritten s) = false →
        containsSubstrL infoMarker (gunicornRewritten s) = false →
        containsSubstrL warningMarker (gunicornRewritten s) = true →
        gunicornWrite s
          = some (30, String.mk (logNormalize warningMarker (gunicornRewritten s)))) ∧
      (containsSubstrL debugMarker (gunicornRewritten s) = false →
        containsSubstrL infoMarker (gunicornRewritten s) = false →
        containsSubstrL warningMarker (gunicornRewritten s) = false →
        containsSubstrL errorMarker (gunicornRewritten s) = true →
        gunicornWrite s
          = some (40, String.mk (logNormalize errorMarker (gunicornRewritten s)))) ∧
      (containsSubstrL debugMarker (gunicornRewritten s) = false →
        containsSubstrL infoMarker (gunicornRewritten s) = false →
        containsSubstrL warningMarker (gunicornRewritten s) = false →
        containsSubstrL errorMarker (gunicornRewritten s) = false →
        gunicornWrite s
          = some (20, String.mk (logNormalize [] (gunicornRewritten s)))) := by
  constructor
  · decide
  · intro s hs
    refine ⟨?_, ?_, ?_, ?_, ?_⟩
    · intro h1
      simp [gunicornWrite, scanLevels, gunicornLevelsList, h1]
      exact hs
    · intro h1 h2
      simp [gunicornWrite, scanLevels, gunicornLevelsList, h1, h2]
      exact hs
    · intro h1 h2 h3
      simp [gunicornWrite, scanLevels, gunicornLevelsList, h1, h2, h3]
      exact hs
    · intro h1 h2 h3 h4
      simp [gunicornWrite, scanLevels, gunicornLevelsList, h1, h2, h3, h4]
      exact hs
    · intro h1 h2 h3 h4
      simp [gunicornWrite, scanLevels, gunicornLevelsList, h1, h2, h3, h4]
      exact hs

/-- C9 witness: a marker line is routed at its level with the marker
stripped and whitespace collapsed, and a marker-less access-log style line
defaults to info with its text preserved. -/
theorem C9_log_adapter_normalization_witness :
    gunicornWrite "[ERROR]  upstream timed out" = some (40, "upstream timed out") ∧
    gunicornWrite "10.0.0.1 request line" = some (20, "10.0.0.1 request line") := by
  have h := C9_log_adapter_normalization.2
  constructor
  · have h4 := ((h "[ERROR]  upstream timed out" (by decide)).2.2.2.1)
      (by decide) (by decide) (by decide) (by decide)
    rw [h4]
    decide
  · have h5 := ((h "10.0.0.1 request line" (by decide)).2.2.2.2)
      (by decide) (by decide) (by decide) (by decide)
    rw [h5]
    decide

end Deployer
